import Mathlib

/-!
Verification development for the EPNucleonEnergyCorrelator prototype
macro (`EPNucleonEnergyCorrelatorPrototype.cxx`): the event data model,
the per-event filter/derive/accumulate pipeline, the histogram registry
and the output stage, with theorems about the pipeline's behaviour.

Conventions of the embedding: C++ `float`/`double` data fields are
modelled as exact rationals (every finite machine float is a rational);
transcendental derivations (`std::log`, the polar angle, the rapidity)
take values in `ℝ`.  Reading `front()` of a collection is modelled via
`List.head?`, so an out-of-bounds read on an empty collection is visible
as `none` (in the C++ it is undefined behaviour).
-/

namespace EPNEC

/-- Model of `edm4eic::InclusiveKinematicsData`, restricted to the two
fields the macro reads: `Q2` and `x`. -/
structure InclusiveKinematicsData where
  Q2 : ℚ
  x : ℚ
deriving DecidableEq

/-- Model of `edm4hep::Vector3f`. -/
structure Vector3f where
  x : ℚ
  y : ℚ
  z : ℚ
deriving DecidableEq

/-- Model of `edm4eic::ReconstructedParticleData`, restricted to the two
fields the macro reads: `energy` and `momentum`. -/
structure ReconstructedParticleData where
  energy : ℚ
  momentum : Vector3f
deriving DecidableEq

/-- One event of the input tree: the four named collections the macro
reads (`InclusiveKinematicsElectron`, `InclusiveKinematicsTruth`, and
the configured reconstructed and generated particle collections,
`opt.recPars` and `opt.genPars`). -/
structure Event where
  inclusiveKinematicsElectron : List InclusiveKinematicsData
  inclusiveKinematicsTruth : List InclusiveKinematicsData
  recParticles : List ReconstructedParticleData
  genParticles : List ReconstructedParticleData
deriving DecidableEq

/-- The `Options` struct of the macro. -/
structure Options where
  outFile : String
  inFile : String
  recPars : String
  genPars : String
  minQ2 : ℚ
  maxQ2 : ℚ
  nPow : ℚ

/-- The `DefaultOptions` instance of the macro. -/
def DefaultOptions : Options :=
  { outFile := "testRunWithNEC.epic25061ncdis10x100minq10.d29m7y2025.root"
    inFile := "root://dtn-eic.jlab.org//volatile/eic/EPIC/RECO/25.06.1/epic_craterlake/DIS/NC/10x100/minQ2=10/pythia8NCDIS_10x100_minQ2=10_beamEffects_xAngle=-0.025_hiDiv_5.1287.eicrecon.edm4eic.root"
    recPars := "ReconstructedBreitFrameParticles"
    genPars := "GeneratedBreitFrameParticles"
    minQ2 := 0
    maxQ2 := 100
    nPow := 1 }

/-- The `Axis` helper struct: axis title, number of bins, low edge of
bin 1, low edge of bin `num + 1`. -/
structure Axis where
  title : String
  num : ℕ
  start : ℚ
  stop : ℚ

/-- Axis `"ene"` of the binning map. -/
def eneAxis : Axis := ⟨"E [GeV]", 201, -1, 200⟩

/-- Axis `"ang"` of the binning map. -/
def angAxis : Axis := ⟨"#theta_\x7bbreit\x7d [rad]", 90, -3.15, 3.15⟩

/-- Axis `"rap"` of the binning map. -/
def rapAxis : Axis := ⟨"y = ln tan(#theta/2)", 200, -15, 5⟩

/-- Axis `"weight"` of the binning map. -/
def weightAxis : Axis := ⟨"E/E_\x7bp\x7d", 21, -0.1, 2⟩

/-- Axis `"x"` of the binning map. -/
def xAxis : Axis := ⟨"x_\x7bB\x7d", 21, -0.1, 2⟩

/-- Axis `"lnx"` of the binning map. -/
def lnxAxis : Axis := ⟨"ln x_\x7bB\x7d", 300, -20, 10⟩

/-- Axis `"q"` of the binning map. -/
def qAxis : Axis := ⟨"Q^\x7b2\x7d [GeV/c]^\x7b2\x7d", 101, -10, 1000⟩

/-- Axis `"lnq"` of the binning map. -/
def lnqAxis : Axis := ⟨"ln Q^\x7b2\x7d", 51, -1, 50⟩

/-- Lambda `hasKine`: an inclusive-kinematics collection is present iff
it is non-empty. -/
def hasKine (kines : List InclusiveKinematicsData) : Bool :=
  !kines.isEmpty

/-- Lambda `hasPars`: a particle collection is present iff it is
non-empty. -/
def hasPars (pars : List ReconstructedParticleData) : Bool :=
  !pars.isEmpty

/-- Lambda `cutQ2`: the reconstructed Q² selection,
`(q2 > opt.minQ2) && (q2 < opt.maxQ2)`. -/
def cutQ2 (opt : Options) (q2 : ℚ) : Bool :=
  (q2 > opt.minQ2) && (q2 < opt.maxQ2)

/-- Lambda `getQ2`: reads `kines.front().Q2`; the result is `none` when
the collection is empty (an out-of-bounds `front()` in the C++). -/
def getQ2 (kines : List InclusiveKinematicsData) : Option ℚ :=
  kines.head?.map InclusiveKinematicsData.Q2

/-- Lambda `getXB`: reads `kines.front().x`; the result is `none` when
the collection is empty. -/
def getXB (kines : List InclusiveKinematicsData) : Option ℚ :=
  kines.head?.map InclusiveKinematicsData.x

/-- Lambda `doLog`: `std::log`, modelled by `Real.log`. -/
noncomputable def doLog (num : ℝ) : ℝ :=
  Real.log num

/-- Lambda `getEnergies`: the list of particle energies. -/
def getEnergies (pars : List ReconstructedParticleData) : List ℚ :=
  pars.map ReconstructedParticleData.energy

/-- Model of `edm4hep::utils::anglePolar`: the polar angle of a
3-vector, `acos(z / |v|)`. -/
noncomputable def anglePolar (v : Vector3f) : ℝ :=
  Real.arccos ((v.z : ℝ) / Real.sqrt ((v.x * v.x + v.y * v.y + v.z * v.z : ℚ) : ℝ))

/-- Lambda `getBreitAngles`: the polar angle of each particle's
momentum. -/
noncomputable def getBreitAngles (pars : List ReconstructedParticleData) : List ℝ :=
  pars.map (fun par => anglePolar par.momentum)

/-- Lambda `getRapidity`: `log(tan(angle / 2))` for each angle. -/
noncomputable def getRapidity (angles : List ℝ) : List ℝ :=
  angles.map (fun angle => Real.log (Real.tan (angle / 2)))

/-- Lambda `getWeights`: the per-particle weight `xb * (energy / 100)`. -/
def getWeights (energies : List ℚ) (xb : ℚ) : List ℚ :=
  energies.map (fun energy => xb * (energy / 100))

/-- The availability gate as the code applies it: the conjunction of the
three `Filter` calls, `hasKine` on `InclusiveKinematicsElectron` and
`hasPars` on the reconstructed and the generated particle collections.
Note that `InclusiveKinematicsTruth` is not checked. -/
def passAvail (e : Event) : Bool :=
  hasKine e.inclusiveKinematicsElectron && hasPars e.recParticles && hasPars e.genParticles

/-- The fills an event contributes to each histogram: `f1` maps a 1D
histogram name to its list of (value, weight) fills, `f2` maps a 2D
histogram name to its list of ((x, y), weight) fills.  Unweighted fills
carry weight 1. -/
structure EventFills where
  f1 : String → List (ℝ × ℝ)
  f2 : String → List ((ℝ × ℝ) × ℝ)

/-- The fills of one surviving event, per booked histogram name, built
from the `Define`d columns exactly as the `Histo1D`/`Histo2D` bookings
pair them. -/
noncomputable def mkFills (e : Event) (kRec kGen : InclusiveKinematicsData) : EventFills :=
  let q2Rec : ℚ := kRec.Q2
  let q2Gen : ℚ := kGen.Q2
  let xbRec : ℚ := kRec.x
  let xbGen : ℚ := kGen.x
  let eRec : List ℚ := getEnergies e.recParticles
  let eGen : List ℚ := getEnergies e.genParticles
  let wRec : List ℝ := (getWeights eRec xbRec).map (fun w => (w : ℝ))
  let wGen : List ℝ := (getWeights eGen xbGen).map (fun w => (w : ℝ))
  let thRec : List ℝ := getBreitAngles e.recParticles
  let thGen : List ℝ := getBreitAngles e.genParticles
  let yRec : List ℝ := getRapidity thRec
  let yGen : List ℝ := getRapidity thGen
  { f1 := fun name =>
      if name = "hXBRec" then [((xbRec : ℝ), 1)]
      else if name = "hXBGen" then [((xbGen : ℝ), 1)]
      else if name = "hLogXBRec" then [(doLog (xbRec : ℝ), 1)]
      else if name = "hLogXBGen" then [(doLog (xbGen : ℝ), 1)]
      else if name = "hQ2Rec" then [((q2Rec : ℝ), 1)]
      else if name = "hQ2Gen" then [((q2Gen : ℝ), 1)]
      else if name = "hLogQ2Rec" then [(doLog (q2Rec : ℝ), 1)]
      else if name = "hLogQ2Gen" then [(doLog (q2Gen : ℝ), 1)]
      else if name = "hThetaParRec" then thRec.map (fun v => (v, 1))
      else if name = "hThetaParGen" then thGen.map (fun v => (v, 1))
      else if name = "hRapParRec" then yRec.map (fun v => (v, 1))
      else if name = "hRapParGen" then yGen.map (fun v => (v, 1))
      else if name = "hNECVsRapRec" then yRec.zip wRec
      else if name = "hNECVsRapGen" then yGen.zip wGen
      else if name = "hNECVsThetaRec" then thRec.zip wRec
      else if name = "hNECVsThetaGen" then thGen.zip wGen
      else []
    f2 := fun name =>
      if name = "hXBRecVsGen" then [(((xbGen : ℝ), (xbRec : ℝ)), 1)]
      else if name = "hLogXBRecVsGen" then [((doLog (xbGen : ℝ), doLog (xbRec : ℝ)), 1)]
      else if name = "hQ2RecVsGen" then [(((q2Gen : ℝ), (q2Rec : ℝ)), 1)]
      else if name = "hLogQ2RecVsGen" then [((doLog (q2Gen : ℝ), doLog (q2Rec : ℝ)), 1)]
      else [] }

/-- Outcome of pushing one event through the filter chain: `skipped`
when some `Filter` rejected it, `fault` when a `front()` was taken on an
empty collection (undefined behaviour in the C++), `filled` with the
event's histogram fills otherwise. -/
inductive EvtResult where
  | skipped
  | fault
  | filled (f : EventFills)

/-- One event through the pipeline, in the order the lazy dataframe
evaluates it for the booked histograms: the three availability
`Filter`s, then `q2Rec = InclusiveKinematicsElectron.front().Q2`, then
the `cutQ2` `Filter` on `q2Rec`, then the remaining `Define`s — the
first of which reads `InclusiveKinematicsTruth.front()` without any
emptiness guard. -/
noncomputable def processEvent (opt : Options) (e : Event) : EvtResult :=
  if passAvail e then
    match e.inclusiveKinematicsElectron.head? with
    | none => .fault
    | some kRec =>
      if cutQ2 opt kRec.Q2 then
        match e.inclusiveKinematicsTruth.head? with
        | none => .fault
        | some kGen => .filled (mkFills e kRec kGen)
      else .skipped
  else .skipped

/-- The 1D fills histogram `n` receives from event `e`: empty unless the
event survives the whole filter chain. -/
noncomputable def fills1Of (opt : Options) (e : Event) (n : String) : List (ℝ × ℝ) :=
  match processEvent opt e with
  | .filled f => f.f1 n
  | _ => []

/-- The 2D fills histogram `n` receives from event `e`. -/
noncomputable def fills2Of (opt : Options) (e : Event) (n : String) : List ((ℝ × ℝ) × ℝ) :=
  match processEvent opt e with
  | .filled f => f.f2 n
  | _ => []

/-- All 1D fills histogram `n` receives over a run, in event order. -/
noncomputable def totalFills1 (opt : Options) (events : List Event) (n : String) : List (ℝ × ℝ) :=
  (events.map (fun e => fills1Of opt e n)).flatten

/-- All 2D fills histogram `n` receives over a run, in event order. -/
noncomputable def totalFills2 (opt : Options) (events : List Event) (n : String) : List ((ℝ × ℝ) × ℝ) :=
  (events.map (fun e => fills2Of opt e n)).flatten

/-- ROOT bin lookup on an axis: bin 0 is underflow, bin `num + 1` is
overflow, and bin `i` (for `1 ≤ i ≤ num`) covers
`[start + (i-1)*width, start + i*width)`. -/
noncomputable def binIndex (ax : Axis) (v : ℝ) : ℕ :=
  if v < (ax.start : ℝ) then 0
  else if (ax.stop : ℝ) ≤ v then ax.num + 1
  else 1 + (Int.floor ((v - (ax.start : ℝ)) * ax.num / ((ax.stop : ℝ) - (ax.start : ℝ)))).toNat

/-- Accumulated sum of weights in bin `b` of a 1D histogram with axis
`ax`, over a list of fills. -/
noncomputable def sumwIn (ax : Axis) (b : ℕ) (fills : List (ℝ × ℝ)) : ℝ :=
  (fills.map (fun f => if binIndex ax f.1 = b then f.2 else 0)).sum

/-- Accumulated sum of squared weights in bin `b` of a 1D histogram. -/
noncomputable def sumw2In (ax : Axis) (b : ℕ) (fills : List (ℝ × ℝ)) : ℝ :=
  (fills.map (fun f => if binIndex ax f.1 = b then f.2 * f.2 else 0)).sum

/-- Accumulated sum of weights in bin `(bx, b2)` of a 2D histogram. -/
noncomputable def sumwIn2 (axx axy : Axis) (bx b2 : ℕ) (fills : List ((ℝ × ℝ) × ℝ)) : ℝ :=
  (fills.map (fun f => if binIndex axx f.1.1 = bx ∧ binIndex axy f.1.2 = b2 then f.2 else 0)).sum

/-- Accumulated sum of squared weights in bin `(bx, b2)` of a 2D
histogram. -/
noncomputable def sumw2In2 (axx axy : Axis) (bx b2 : ℕ) (fills : List ((ℝ × ℝ) × ℝ)) : ℝ :=
  (fills.map (fun f => if binIndex axx f.1.1 = bx ∧ binIndex axy f.1.2 = b2 then f.2 * f.2 else 0)).sum

/-- The names declared in the `hist1D` registry map (the names of the
`TH1DModel` values, in the order the map is written in the source). -/
def hist1DNames : List String :=
  ["hNECVsRapRec", "hNECVsRapGen", "hNECVsThetaRec", "hNECVsThetaGen",
   "hThetaParRec", "hThetaParGen", "hRapParRec", "hRapParGen",
   "hEneParRec", "hEneParGen", "hEneNucRec", "hEneNucGen",
   "hEneFrac", "hXBRec", "hXBGen", "hLogXBRec", "hLogXBGen",
   "hQ2Rec", "hQ2Gen", "hLogQ2Rec", "hLogQ2Gen"]

/-- The names declared in the `hist2D` registry map. -/
def hist2DNames : List String :=
  ["hXBRecVsGen", "hLogXBRecVsGen", "hQ2RecVsGen", "hLogQ2RecVsGen"]

/-- The names of the histograms actually booked through `Histo1D` and
`Histo2D` calls, in booking order. -/
def bookedNames : List String :=
  ["hXBRec", "hXBGen", "hLogXBRec", "hLogXBGen",
   "hQ2Rec", "hQ2Gen", "hLogQ2Rec", "hLogQ2Gen",
   "hThetaParRec", "hThetaParGen", "hRapParRec", "hRapParGen",
   "hNECVsRapRec", "hNECVsRapGen", "hNECVsThetaRec", "hNECVsThetaGen",
   "hXBRecVsGen", "hLogXBRecVsGen", "hQ2RecVsGen", "hLogQ2RecVsGen"]

/-- The names written to the output file, in the order of the `Write`
calls. -/
def writtenNames : List String :=
  ["hXBRec", "hXBGen", "hLogXBRec", "hLogXBGen",
   "hQ2Rec", "hQ2Gen", "hLogQ2Rec", "hLogQ2Gen",
   "hXBRecVsGen", "hLogXBRecVsGen", "hQ2RecVsGen", "hLogQ2RecVsGen",
   "hThetaParRec", "hThetaParGen", "hRapParRec", "hRapParGen",
   "hNECVsRapRec", "hNECVsRapGen", "hNECVsThetaRec", "hNECVsThetaGen"]

/-- The output artifact of a completed run: each written histogram name
together with the 1D and 2D fills accumulated under that name. -/
noncomputable def writeOutput (opt : Options) (events : List Event) :
    List (String × (List (ℝ × ℝ) × List ((ℝ × ℝ) × ℝ))) :=
  writtenNames.map (fun n => (n, (totalFills1 opt events n, totalFills2 opt events n)))

/-- The macro's control flow: create the output file (abort on
failure), open the input and count its events (abort when none are
found), otherwise process every event and write all booked histograms.
`input = none` models an input resource that cannot be opened. -/
noncomputable def runAnalysis (opt : Options) (outputOpened : Bool)
    (input : Option (List Event)) :
    Except String (List (String × (List (ℝ × ℝ) × List ((ℝ × ℝ) × ℝ)))) :=
  if outputOpened = false then .error "PANIC: could not open output file!"
  else
    match input with
    | none => .error "PANIC: no events found!"
    | some events =>
      if events.length = 0 then .error "PANIC: no events found!"
      else .ok (writeOutput opt events)

/-- Concrete event: kinematics in the default Q² window, one
reconstructed and one generated particle. -/
def evA : Event :=
  { inclusiveKinematicsElectron := [⟨25, 0.1⟩]
    inclusiveKinematicsTruth := [⟨24, 0.09⟩]
    recParticles := [⟨50, ⟨0, 0, 50⟩⟩]
    genParticles := [⟨50, ⟨0, 0, 50⟩⟩] }

/-- Concrete event: same shape as `evA` with different values. -/
def evB : Event :=
  { inclusiveKinematicsElectron := [⟨36, 0.2⟩]
    inclusiveKinematicsTruth := [⟨35, 0.18⟩]
    recParticles := [⟨40, ⟨3, 4, 5⟩⟩, ⟨10, ⟨0, 1, 1⟩⟩]
    genParticles := [⟨40, ⟨3, 4, 5⟩⟩] }

/-- Concrete event whose generated (truth) inclusive-kinematics
collection is empty while the other three collections are non-empty. -/
def evTruthMissing : Event :=
  { inclusiveKinematicsElectron := [⟨25, 0.1⟩]
    inclusiveKinematicsTruth := []
    recParticles := [⟨50, ⟨0, 0, 50⟩⟩]
    genParticles := [⟨50, ⟨0, 0, 50⟩⟩] }

/-- Options with a negative lower Q² cut, so that a negative `q2Rec` can
reach the derivation stage. -/
def optNeg : Options :=
  { DefaultOptions with minQ2 := -10 }

/-- Concrete event with a non-positive reconstructed Q². -/
def evQ2Neg : Event :=
  { inclusiveKinematicsElectron := [⟨-5, 0.1⟩]
    inclusiveKinematicsTruth := [⟨24, 0.09⟩]
    recParticles := [⟨50, ⟨0, 0, 50⟩⟩]
    genParticles := [⟨50, ⟨0, 0, 50⟩⟩] }

/-- An event whose availability filters and Q² cut pass and whose truth
collection is non-empty is processed into the fills of its two front
kinematics records. -/
theorem processEvent_filled (opt : Options) (e : Event)
    (kRec kGen : InclusiveKinematicsData)
    (hA : passAvail e = true)
    (hE : e.inclusiveKinematicsElectron.head? = some kRec)
    (hC : cutQ2 opt kRec.Q2 = true)
    (hT : e.inclusiveKinematicsTruth.head? = some kGen) :
    processEvent opt e = .filled (mkFills e kRec kGen) := by
  simp [processEvent, hA, hE, hC, hT]

/-- Summing any pointwise score over the flattened per-event fill lists
is invariant under permuting the events. -/
theorem sum_map_flatten_perm {α β : Type} (F : α → List β) (φ : β → ℝ)
    {l1 l2 : List α} (h : l1.Perm l2) :
    (((l1.map F).flatten).map φ).sum = (((l2.map F).flatten).map φ).sum := by
  rw [List.map_flatten, List.map_flatten, List.sum_flatten, List.sum_flatten,
    List.map_map, List.map_map, List.map_map, List.map_map]
  exact ((h.map _).sum_eq)

/-- Bin sums split over appended fill lists. -/
theorem sumwIn_append (ax : Axis) (b : ℕ) (l1 l2 : List (ℝ × ℝ)) :
    sumwIn ax b (l1 ++ l2) = sumwIn ax b l1 + sumwIn ax b l2 := by
  simp [sumwIn]

/-- A single fill lands its whole weight in the bin containing its
value. -/
theorem sumwIn_single (ax : Axis) (v w : ℝ) :
    sumwIn ax (binIndex ax v) [(v, w)] = w := by
  simp [sumwIn]

/-- C1: the claim says the availability gate rejects an event whose
generated (truth) inclusive-kinematics collection is empty before any
derivation reads its front.  The code's gate checks only
`InclusiveKinematicsElectron` and the two particle collections, so the
concrete event `evTruthMissing` (empty truth collection, the other
three non-empty, Q² inside the default cuts) passes the gate and the
`q2Gen` derivation then reads the front of the empty truth collection:
`getQ2` yields `none` and the pipeline ends in the `fault` outcome that
models the out-of-bounds `front()`. -/
theorem C1_truth_collection_not_gated :
    passAvail evTruthMissing = true ∧
    cutQ2 DefaultOptions 25 = true ∧
    getQ2 evTruthMissing.inclusiveKinematicsTruth = none ∧
    processEvent DefaultOptions evTruthMissing = .fault :=
  ⟨by decide, by decide, rfl, rfl⟩

/-- C2: the selection gate accepts exactly the events with
`minQ2 < q2Rec < maxQ2`, and both boundary values are rejected. -/
theorem C2_selection_gate_strict (opt : Options) (q2 : ℚ) :
    (cutQ2 opt q2 = true ↔ opt.minQ2 < q2 ∧ q2 < opt.maxQ2) ∧
    cutQ2 opt opt.minQ2 = false ∧
    cutQ2 opt opt.maxQ2 = false := by
  refine ⟨by simp [cutQ2], by simp [cutQ2], by simp [cutQ2]⟩

/-- C3: for a single-particle event that survives both gates, the
`hNECVsRapRec` fill is exactly one weighted fill: the particle's
rapidity `log(tan(anglePolar(momentum)/2))` weighted by
`x_rec * (energy / 100)`, and the accumulated sum of weights in the bin
containing that rapidity increases by exactly that weight. -/
theorem C3_single_particle_nec_weight (opt : Options) (e : Event)
    (kRec kGen : InclusiveKinematicsData) (p : ReconstructedParticleData)
    (old : List (ℝ × ℝ)) (ax : Axis)
    (hA : passAvail e = true)
    (hE : e.inclusiveKinematicsElectron.head? = some kRec)
    (hC : cutQ2 opt kRec.Q2 = true)
    (hT : e.inclusiveKinematicsTruth.head? = some kGen)
    (hp : e.recParticles = [p]) :
    fills1Of opt e "hNECVsRapRec" =
      [(Real.log (Real.tan (anglePolar p.momentum / 2)),
        (kRec.x : ℝ) * ((p.energy : ℝ) / 100))] ∧
    sumwIn ax (binIndex ax (Real.log (Real.tan (anglePolar p.momentum / 2))))
        (old ++ fills1Of opt e "hNECVsRapRec") =
      sumwIn ax (binIndex ax (Real.log (Real.tan (anglePolar p.momentum / 2)))) old +
        (kRec.x : ℝ) * ((p.energy : ℝ) / 100) := by
  have hP := processEvent_filled opt e kRec kGen hA hE hC hT
  have h1 : fills1Of opt e "hNECVsRapRec" =
      [(Real.log (Real.tan (anglePolar p.momentum / 2)),
        (kRec.x : ℝ) * ((p.energy : ℝ) / 100))] := by
    rw [fills1Of, hP]
    show (mkFills e kRec kGen).f1 "hNECVsRapRec" = _
    have h2 : (mkFills e kRec kGen).f1 "hNECVsRapRec" =
        (getRapidity (getBreitAngles e.recParticles)).zip
          ((getWeights (getEnergies e.recParticles) kRec.x).map (fun w => (w : ℝ))) := rfl
    rw [h2, hp]
    simp [getRapidity, getBreitAngles, getEnergies, getWeights]
  refine ⟨h1, ?_⟩
  rw [h1, sumwIn_append]
  have := sumwIn_single ax (Real.log (Real.tan (anglePolar p.momentum / 2)))
    ((kRec.x : ℝ) * ((p.energy : ℝ) / 100))
  rw [this]

/-- Witness for C3 at the concrete event `evA` (one reconstructed
particle of energy 50, reconstructed x 0.1) on the rapidity axis. -/
theorem C3_witness :
    fills1Of DefaultOptions evA "hNECVsRapRec" =
      [(Real.log (Real.tan (anglePolar ⟨0, 0, 50⟩ / 2)),
        ((0.1 : ℚ) : ℝ) * (((50 : ℚ) : ℝ) / 100))] ∧
    sumwIn rapAxis (binIndex rapAxis (Real.log (Real.tan (anglePolar ⟨0, 0, 50⟩ / 2))))
        ([] ++ fills1Of DefaultOptions evA "hNECVsRapRec") =
      sumwIn rapAxis (binIndex rapAxis (Real.log (Real.tan (anglePolar ⟨0, 0, 50⟩ / 2)))) [] +
        ((0.1 : ℚ) : ℝ) * (((50 : ℚ) : ℝ) / 100) :=
  C3_single_particle_nec_weight DefaultOptions evA ⟨25, 0.1⟩ ⟨24, 0.09⟩ ⟨50, ⟨0, 0, 50⟩⟩ [] rapAxis
    (by decide) rfl (by decide) rfl rfl

/-- Counterexample for C4: the concrete event `evA` survives the whole
filter chain with exactly one reconstructed particle, yet the
reconstructed energy histogram `hEneParRec` receives zero fills (it is
declared in the registry but never booked through a `Histo1D` call), so
its total fill count does not increase by N = 1. -/
theorem C4_energy_hist_unfilled_cex :
    (∃ f, processEvent DefaultOptions evA = EvtResult.filled f) ∧
    evA.recParticles.length = 1 ∧
    (fills1Of DefaultOptions evA "hEneParRec").length = 0 :=
  ⟨⟨_, rfl⟩, rfl, rfl⟩

/-- C4 (amended): for every event surviving both gates, the declared
but never-booked reconstructed energy histogram `hEneParRec` gains
exactly 0 fills, while the booked particle-indexed histograms
`hThetaParRec` and `hRapParRec` each gain exactly one fill per
reconstructed particle. -/
theorem C4_per_particle_fold_amended (opt : Options) (e : Event)
    (kRec kGen : InclusiveKinematicsData)
    (hA : passAvail e = true)
    (hE : e.inclusiveKinematicsElectron.head? = some kRec)
    (hC : cutQ2 opt kRec.Q2 = true)
    (hT : e.inclusiveKinematicsTruth.head? = some kGen) :
    (fills1Of opt e "hEneParRec").length = 0 ∧
    (fills1Of opt e "hThetaParRec").length = e.recParticles.length ∧
    (fills1Of opt e "hRapParRec").length = e.recParticles.length := by
  have hP := processEvent_filled opt e kRec kGen hA hE hC hT
  have hEne : (mkFills e kRec kGen).f1 "hEneParRec" = [] := rfl
  have hTh : (mkFills e kRec kGen).f1 "hThetaParRec" =
      (getBreitAngles e.recParticles).map (fun v => (v, 1)) := rfl
  have hRap : (mkFills e kRec kGen).f1 "hRapParRec" =
      (getRapidity (getBreitAngles e.recParticles)).map (fun v => (v, 1)) := rfl
  refine ⟨?_, ?_, ?_⟩ <;>
    simp [fills1Of, hP, hEne, hTh, hRap, getBreitAngles, getRapidity]

/-- Witness for the amended C4 at the concrete two-particle event
`evB`. -/
theorem C4_witness :
    (fills1Of DefaultOptions evB "hEneParRec").length = 0 ∧
    (fills1Of DefaultOptions evB "hThetaParRec").length = evB.recParticles.length ∧
    (fills1Of DefaultOptions evB "hRapParRec").length = evB.recParticles.length :=
  C4_per_particle_fold_amended DefaultOptions evB ⟨36, 0.2⟩ ⟨35, 0.18⟩
    (by decide) rfl (by decide) rfl

/-- Counterexample for C5: the five registry entries `hEneParRec`,
`hEneParGen`, `hEneNucRec`, `hEneNucGen` and `hEneFrac` are declared in
the `hist1D` map but are absent from the `Write` calls, so the output
artifact does not contain every declared histogram. -/
theorem C5_unwritten_registry_entries_cex :
    ("hEneParRec" ∈ hist1DNames ∧ "hEneParRec" ∉ writtenNames) ∧
    ("hEneParGen" ∈ hist1DNames ∧ "hEneParGen" ∉ writtenNames) ∧
    ("hEneNucRec" ∈ hist1DNames ∧ "hEneNucRec" ∉ writtenNames) ∧
    ("hEneNucGen" ∈ hist1DNames ∧ "hEneNucGen" ∉ writtenNames) ∧
    ("hEneFrac" ∈ hist1DNames ∧ "hEneFrac" ∉ writtenNames) := by
  decide

/-- C5 (amended): the output artifact contains exactly the histograms
that are booked through `Histo1D`/`Histo2D` calls, each written once
under its declared registry name (the written names are exactly the
booked names, every written name is a declared registry name, and the
written names are pairwise distinct). -/
theorem C5_output_contains_booked (opt : Options) (events : List Event) :
    (writeOutput opt events).map Prod.fst = writtenNames ∧
    writtenNames.toFinset = bookedNames.toFinset ∧
    writtenNames.toFinset ⊆ hist1DNames.toFinset ∪ hist2DNames.toFinset ∧
    writtenNames.Nodup := by
  refine ⟨rfl, by decide, by decide, by decide⟩

/-- C6: for a surviving event, if `q2Rec = 25` then the `hLogQ2Rec`
fill value is exactly `ln 25`; and for any `q2Rec ≤ 0` the pipeline
still produces a well-defined result — the event is processed without
fault, the `hLogQ2Rec` fill carries the well-defined sentinel value
`doLog q2Rec`, the `hQ2Rec` fill carries `q2Rec` itself, and the
remaining per-particle fills proceed normally. -/
theorem C6_log_domain_policy (opt : Options) (e : Event)
    (kRec kGen : InclusiveKinematicsData)
    (hA : passAvail e = true)
    (hE : e.inclusiveKinematicsElectron.head? = some kRec)
    (hC : cutQ2 opt kRec.Q2 = true)
    (hT : e.inclusiveKinematicsTruth.head? = some kGen) :
    (kRec.Q2 = 25 → fills1Of opt e "hLogQ2Rec" = [(Real.log 25, 1)]) ∧
    (kRec.Q2 ≤ 0 →
      (∃ f, processEvent opt e = EvtResult.filled f) ∧
      fills1Of opt e "hLogQ2Rec" = [(doLog (kRec.Q2 : ℝ), 1)] ∧
      fills1Of opt e "hQ2Rec" = [((kRec.Q2 : ℝ), 1)] ∧
      (fills1Of opt e "hRapParRec").length = e.recParticles.length) := by
  have hP := processEvent_filled opt e kRec kGen hA hE hC hT
  have hLn : fills1Of opt e "hLogQ2Rec" = [(doLog (kRec.Q2 : ℝ), 1)] := by
    simp [fills1Of, hP]; rfl
  have hQ : fills1Of opt e "hQ2Rec" = [((kRec.Q2 : ℝ), 1)] := by
    simp [fills1Of, hP]; rfl
  have hRap : fills1Of opt e "hRapParRec" =
      (getRapidity (getBreitAngles e.recParticles)).map (fun v => (v, 1)) := by
    simp [fills1Of, hP]; rfl
  constructor
  · intro h25
    rw [hLn, h25]
    norm_num [doLog]
  · intro _
    exact ⟨⟨_, hP⟩, hLn, hQ, by simp [hRap, getRapidity, getBreitAngles]⟩

/-- Witness for C6 at the concrete event `evQ2Neg` with
`q2Rec = -5 ≤ 0`, under options whose lower Q² cut is -10. -/
theorem C6_witness :
    (∃ f, processEvent optNeg evQ2Neg = EvtResult.filled f) ∧
    fills1Of optNeg evQ2Neg "hLogQ2Rec" = [(doLog ((-5 : ℚ) : ℝ), 1)] ∧
    fills1Of optNeg evQ2Neg "hQ2Rec" = [(((-5 : ℚ) : ℝ), 1)] ∧
    (fills1Of optNeg evQ2Neg "hRapParRec").length = evQ2Neg.recParticles.length :=
  (C6_log_domain_policy optNeg evQ2Neg ⟨-5, 0.1⟩ ⟨24, 0.09⟩
    (by decide) rfl (by decide) rfl).2 (by norm_num)

/-- C7: when the input resource cannot be opened (`input = none`) or
it contains zero events, the run ends in the error branch for every
configuration: no event is processed and no output artifact is
produced. -/
theorem C7_resource_unavailable_aborts (opt : Options) (outputOpened : Bool)
    (input : Option (List Event))
    (h : input = none ∨ input = some []) :
    (runAnalysis opt outputOpened input).toOption = none := by
  rcases h with h | h <;> subst h <;> cases outputOpened <;>
    simp [runAnalysis, Except.toOption]

/-- Witness for C7 at an unopenable input and at an empty input. -/
theorem C7_witness :
    (runAnalysis DefaultOptions true none).toOption = none ∧
    (runAnalysis DefaultOptions true (some [])).toOption = none :=
  ⟨C7_resource_unavailable_aborts DefaultOptions true none (Or.inl rfl),
   C7_resource_unavailable_aborts DefaultOptions true (some []) (Or.inr rfl)⟩

/-- C8: processing the same multiset of events in any permuted order
yields identical accumulated bin contents — sums of weights and sums of
squared weights, for every histogram name, axis and bin, in 1D and
2D. -/
theorem C8_event_order_invariance (opt : Options) (es1 es2 : List Event)
    (hperm : es1.Perm es2) (n : String) (ax ay : Axis) (b bx b2 : ℕ) :
    sumwIn ax b (totalFills1 opt es1 n) = sumwIn ax b (totalFills1 opt es2 n) ∧
    sumw2In ax b (totalFills1 opt es1 n) = sumw2In ax b (totalFills1 opt es2 n) ∧
    sumwIn2 ax ay bx b2 (totalFills2 opt es1 n) = sumwIn2 ax ay bx b2 (totalFills2 opt es2 n) ∧
    sumw2In2 ax ay bx b2 (totalFills2 opt es1 n) = sumw2In2 ax ay bx b2 (totalFills2 opt es2 n) :=
  ⟨sum_map_flatten_perm _ _ hperm, sum_map_flatten_perm _ _ hperm,
   sum_map_flatten_perm _ _ hperm, sum_map_flatten_perm _ _ hperm⟩

/-- Witness for C8: swapping the two concrete events `evA` and `evB`
leaves the accumulated `hQ2Rec` bin contents unchanged. -/
theorem C8_witness :
    sumwIn qAxis 1 (totalFills1 DefaultOptions [evA, evB] "hQ2Rec") =
      sumwIn qAxis 1 (totalFills1 DefaultOptions [evB, evA] "hQ2Rec") ∧
    sumw2In qAxis 1 (totalFills1 DefaultOptions [evA, evB] "hQ2Rec") =
      sumw2In qAxis 1 (totalFills1 DefaultOptions [evB, evA] "hQ2Rec") ∧
    sumwIn2 qAxis qAxis 1 1 (totalFills2 DefaultOptions [evA, evB] "hQ2Rec") =
      sumwIn2 qAxis qAxis 1 1 (totalFills2 DefaultOptions [evB, evA] "hQ2Rec") ∧
    sumw2In2 qAxis qAxis 1 1 (totalFills2 DefaultOptions [evA, evB] "hQ2Rec") =
      sumw2In2 qAxis qAxis 1 1 (totalFills2 DefaultOptions [evB, evA] "hQ2Rec") :=
  C8_event_order_invariance DefaultOptions [evA, evB] [evB, evA]
    (List.Perm.swap evB evA []) "hQ2Rec" qAxis qAxis 1 1 1

/-- C9: the configuration field `nPow` is read by no formula — runs
whose options differ only in `nPow` produce the same per-event result
and the same output artifact (and the artifact keeps the same name). -/
theorem C9_nPow_unused (opt : Options) (p : ℚ) (e : Event)
    (outputOpened : Bool) (input : Option (List Event)) :
    ({ opt with nPow := p } : Options).outFile = opt.outFile ∧
    processEvent { opt with nPow := p } e = processEvent opt e ∧
    runAnalysis { opt with nPow := p } outputOpened input =
      runAnalysis opt outputOpened input :=
  ⟨rfl, rfl, rfl⟩

/-- C10: every surviving event fills each rec-vs-gen 2D histogram
exactly once, with the generated-view value on the x axis and the
reconstructed-view value on the y axis. -/
theorem C10_recvsgen_fill_order (opt : Options) (e : Event)
    (kRec kGen : InclusiveKinematicsData)
    (hA : passAvail e = true)
    (hE : e.inclusiveKinematicsElectron.head? = some kRec)
    (hC : cutQ2 opt kRec.Q2 = true)
    (hT : e.inclusiveKinematicsTruth.head? = some kGen) :
    fills2Of opt e "hXBRecVsGen" = [(((kGen.x : ℝ), (kRec.x : ℝ)), 1)] ∧
    fills2Of opt e "hLogXBRecVsGen" = [((doLog (kGen.x : ℝ), doLog (kRec.x : ℝ)), 1)] ∧
    fills2Of opt e "hQ2RecVsGen" = [(((kGen.Q2 : ℝ), (kRec.Q2 : ℝ)), 1)] ∧
    fills2Of opt e "hLogQ2RecVsGen" = [((doLog (kGen.Q2 : ℝ), doLog (kRec.Q2 : ℝ)), 1)] := by
  have hP := processEvent_filled opt e kRec kGen hA hE hC hT
  refine ⟨?_, ?_, ?_, ?_⟩ <;> (simp [fills2Of, hP]; rfl)

/-- Witness for C10 at the concrete event `evA`: generated values land
on the x axis, reconstructed values on the y axis. -/
theorem C10_witness :
    fills2Of DefaultOptions evA "hXBRecVsGen" =
      [((((0.09 : ℚ) : ℝ), ((0.1 : ℚ) : ℝ)), 1)] ∧
    fills2Of DefaultOptions evA "hLogXBRecVsGen" =
      [((doLog ((0.09 : ℚ) : ℝ), doLog ((0.1 : ℚ) : ℝ)), 1)] ∧
    fills2Of DefaultOptions evA "hQ2RecVsGen" =
      [((((24 : ℚ) : ℝ), ((25 : ℚ) : ℝ)), 1)] ∧
    fills2Of DefaultOptions evA "hLogQ2RecVsGen" =
      [((doLog ((24 : ℚ) : ℝ), doLog ((25 : ℚ) : ℝ)), 1)] :=
  C10_recvsgen_fill_order DefaultOptions evA ⟨25, 0.1⟩ ⟨24, 0.09⟩
    (by decide) rfl (by decide) rfl

end EPNEC
